import Mathlib

/-!
# WhatSend — WhatsApp connection lifecycle and outbound delivery pipeline

A shallow embedding, in Lean 4, of the core of the WhatSend repository: the
credential store adapter (BufferJSON-encoded session blobs), the session
manager's connection-close handling, the connection status projector, the
outbound delivery worker, startup reconciliation, and tenant-data erasure.
Definitions are translated from the TypeScript source files; theorems settle
the behavioural claims about them.
-/

namespace WhatSend

/-! ## Base64 (Node `Buffer.toString('base64')` / `Buffer.from(s, 'base64')`)

`BufferJSON.replacer` stores binary fields as base64 strings and
`BufferJSON.reviver` decodes them.  We model RFC 4648 base64 with padding,
which is what Node's `Buffer` produces and consumes. -/

/-- The base64 alphabet, indexed by sextet value. -/
def b64Alphabet : List Char :=
  "ABCDEFGHIJKLMNOPQRSTUVWXYZabcdefghijklmnopqrstuvwxyz0123456789+/".data

/-- Character for a sextet value. -/
def b64Char (n : Nat) : Char := b64Alphabet.getD n 'A'

/-- Sextet value of a base64 character (`List.indexOf`: 64 for a non-alphabet
character, which Node's lenient decoder never feeds back in our domain). -/
def b64Index (c : Char) : Nat := b64Alphabet.indexOf c

/-- Encode a byte list three bytes at a time into base64 characters, with
`'='` padding for a 1- or 2-byte tail. -/
def b64EncodeChunks : List Nat → List Char
  | [] => []
  | [b1] => [b64Char (b1 / 4), b64Char (b1 % 4 * 16), '=', '=']
  | [b1, b2] => [b64Char (b1 / 4), b64Char (b1 % 4 * 16 + b2 / 16),
                 b64Char (b2 % 16 * 4), '=']
  | b1 :: b2 :: b3 :: rest =>
      b64Char (b1 / 4) :: b64Char (b1 % 4 * 16 + b2 / 16) ::
      b64Char (b2 % 16 * 4 + b3 / 64) :: b64Char (b3 % 64) :: b64EncodeChunks rest

/-- Decode base64 characters four at a time back into bytes. -/
def b64DecodeChunks : List Char → List Nat
  | c1 :: c2 :: c3 :: c4 :: rest =>
      if c3 = '=' then
        [b64Index c1 * 4 + b64Index c2 / 16]
      else if c4 = '=' then
        [b64Index c1 * 4 + b64Index c2 / 16,
         b64Index c2 % 16 * 16 + b64Index c3 / 4]
      else
        (b64Index c1 * 4 + b64Index c2 / 16) ::
        (b64Index c2 % 16 * 16 + b64Index c3 / 4) ::
        (b64Index c3 % 4 * 64 + b64Index c4) :: b64DecodeChunks rest
  | _ => []

/-- `Buffer.prototype.toString('base64')`. -/
def b64encode (bs : List Nat) : String := String.mk (b64EncodeChunks bs)

/-- `Buffer.from(s, 'base64')` as a byte list. -/
def b64decode (s : String) : List Nat := b64DecodeChunks s.data

/-! ## JSON values with embedded binary buffers

The credential blob (`AuthenticationCreds` plus signal key maps) is an
arbitrary JSON-like structure in which binary key material appears as Node
`Buffer`/`Uint8Array` values (`jbuf`).  After `BufferJSON.replacer`
serialization the same structure is plain JSON in which every buffer has
become `{ type: 'Buffer', data: <base64> }`.  A mutual inductive keeps all
recursion structural. -/

mutual
inductive JVal : Type where
  | jnull : JVal
  | jbool (b : Bool) : JVal
  | jnum (n : Int) : JVal
  | jstr (s : String) : JVal
  | jbuf (bytes : List Nat) : JVal
  | jarr (items : JList) : JVal
  | jobj (fields : JFields) : JVal
deriving DecidableEq
inductive JList : Type where
  | nil : JList
  | cons (head : JVal) (tail : JList) : JList
deriving DecidableEq
inductive JFields : Type where
  | nil : JFields
  | cons (key : String) (val : JVal) (tail : JFields) : JFields
deriving DecidableEq
end

/-- Property lookup on an object's field list. -/
def JFields.lookup : JFields → String → Option JVal
  | .nil, _ => none
  | .cons k v rest, key => if k = key then some v else rest.lookup key

/-- JavaScript truthiness of a JSON value (objects, arrays and buffers are
always truthy; `0`, `""`, `null` and `false` are falsy). -/
def jsTruthy : JVal → Bool
  | .jnull => false
  | .jbool b => b
  | .jnum n => n != 0
  | .jstr s => s != ""
  | .jbuf _ => true
  | .jarr _ => true
  | .jobj _ => true

/-- `Number(x) & 255` as applied by `Buffer.from(array)` to an array element
(numbers mod 256, booleans as 0/1, other element shapes coerce to 0; numeric
strings, which also coerce in Node, never occur in stored blobs). -/
def toByte : JVal → Nat
  | .jnum n => (n % 256).toNat
  | .jbool b => if b then 1 else 0
  | _ => 0

/-- Bytes of a JSON array, as `Buffer.from(array)` computes them. -/
def JList.bytes : JList → List Nat
  | .nil => []
  | .cons v rest => toByte v :: rest.bytes

/-- UTF-8 bytes of a string; our domain is ASCII (base64 text), where UTF-8
bytes coincide with code points. -/
def asciiBytes (s : String) : List Nat := s.data.map Char.toNat

/-- The plain-JSON object `{ type: 'Buffer', data: s }` that
`BufferJSON.replacer` produces for a buffer. -/
def bufObj (s : String) : JVal :=
  .jobj (.cons "type" (.jstr "Buffer") (.cons "data" (.jstr s) .nil))

/-- `BufferJSON.replacer` fires on `{ ..., type: 'Buffer', ... }` objects. -/
def isBufShapeS (fs : JFields) : Bool := fs.lookup "type" == some (.jstr "Buffer")

/-- `BufferJSON.reviver` fires on objects with `buffer === true` or
`type === 'Buffer'`. -/
def isBufShapeR (fs : JFields) : Bool :=
  fs.lookup "buffer" == some (.jbool true) || fs.lookup "type" == some (.jstr "Buffer")

mutual
/-- `JSON.parse(JSON.stringify(v, BufferJSON.replacer))`: the binary-safe
encoding pass.  A real buffer first passes through `Buffer.prototype.toJSON`
and the replacer then emits `{ type: 'Buffer', data: base64 }`; an object that
already looks buffer-shaped is re-encoded from its `data` property
(`Buffer.from(value?.data || value)`), which base64-encodes the UTF-8 bytes of
a string `data` and the coerced bytes of an array `data`, and throws a
`TypeError` (modelled as `.error`) on other shapes. -/
def stringifyE : JVal → Except String JVal
  | .jbuf bs => .ok (bufObj (b64encode (bs.map (· % 256))))
  | .jarr items => do pure (.jarr (← stringifyListE items))
  | .jobj fs =>
      if isBufShapeS fs then
        match fs.lookup "data" with
        | some d =>
          if jsTruthy d then
            match d with
            | .jstr s => .ok (bufObj (b64encode (asciiBytes s)))
            | .jarr items => .ok (bufObj (b64encode items.bytes))
            | .jbuf bs => .ok (bufObj (b64encode (bs.map (· % 256))))
            | _ => .error "TypeError: Buffer.from on non-array data"
          else .error "TypeError: Buffer.from on buffer-shaped object"
        | none => .error "TypeError: Buffer.from on buffer-shaped object"
      else do pure (.jobj (← stringifyFieldsE fs))
  | v => .ok v
def stringifyListE : JList → Except String JList
  | .nil => .ok .nil
  | .cons v rest => do pure (.cons (← stringifyE v) (← stringifyListE rest))
def stringifyFieldsE : JFields → Except String JFields
  | .nil => .ok .nil
  | .cons k v rest => do pure (.cons k (← stringifyE v) (← stringifyFieldsE rest))
end

mutual
/-- `JSON.parse(JSON.stringify(v), BufferJSON.reviver)`: the decoding pass.
The reviver runs bottom-up; on a buffer-shaped object it takes
`val = value.data || value.value` and returns `Buffer.from(val, 'base64')`
when `val` is a string, `Buffer.from(val || [])` otherwise — bytes for an
array or buffer, the empty buffer for a falsy value, and a `TypeError` for a
truthy non-array value. -/
def parseE : JVal → Except String JVal
  | .jarr items => do pure (.jarr (← parseListE items))
  | .jobj fs => do
      let fs' ← parseFieldsE fs
      if isBufShapeR fs' then
        let val := match fs'.lookup "data" with
          | some d => if jsTruthy d then some d else fs'.lookup "value"
          | none => fs'.lookup "value"
        match val with
        | some (.jstr s) => pure (.jbuf (b64decode s))
        | some (.jarr items) => pure (.jbuf items.bytes)
        | some (.jbuf bs) => pure (.jbuf bs)
        | some v => if jsTruthy v then .error "TypeError: Buffer.from" else pure (.jbuf [])
        | none => pure (.jbuf [])
      else pure (.jobj fs')
  | v => .ok v
def parseListE : JList → Except String JList
  | .nil => .ok .nil
  | .cons v rest => do pure (.cons (← parseE v) (← parseListE rest))
def parseFieldsE : JFields → Except String JFields
  | .nil => .ok .nil
  | .cons k v rest => do pure (.cons k (← parseE v) (← parseFieldsE rest))
end

/-! ## Credential store adapter: save and load pipelines

`saveToDatabase` (both `part_000` and `part_011`) stores
`JSON.parse(JSON.stringify({ creds, keys }, BufferJSON.replacer))`, i.e.
`stringifyE`.

Loading differs between the two versions:

* `part_011` `getDatabaseAuthState` (lines 46–49) runs
  `JSON.parse(JSON.stringify(stored), BufferJSON.reviver)`; a plain
  stringify/parse of an already-plain JSON value is the identity embedding,
  so this is exactly `parseE`.
* `part_000` `useDatabaseAuthState` (lines 42–44) first runs
  `JSON.parse(JSON.stringify(stored, BufferJSON.replacer))` — applying the
  replacer a second time to the already-encoded record — and only then
  `JSON.parse(JSON.stringify(·), BufferJSON.reviver)`. -/

/-- The stored encoding of a session structure (`saveToDatabase`). -/
def encodeSession (v : JVal) : Except String JVal := stringifyE v

/-- Load-time decoding in `part_011` `getDatabaseAuthState`. -/
def getDatabaseAuthState_decode (stored : JVal) : Except String JVal := parseE stored

/-- Load-time decoding in `part_000` `useDatabaseAuthState`: replacer applied
again to the stored record, then the reviver pass. -/
def useDatabaseAuthState_decode (stored : JVal) : Except String JVal := do
  parseE (← stringifyE stored)

/-- A minimal valid credential structure: one identity key pair whose private
key is the raw bytes `[0, 1, 2]`, plus a registration id. -/
def sampleSession : JVal :=
  .jobj (.cons "creds"
    (.jobj (.cons "noiseKey"
      (.jobj (.cons "private" (.jbuf [0, 1, 2]) .nil))
      (.cons "registrationId" (.jnum 42) .nil)))
    .nil)

/-- `sampleSession` after the broken double-replacer load of `part_000`: the
private key bytes have become the UTF-8 bytes of the base64 text `"AAEC"`. -/
def sampleSessionCorrupted : JVal :=
  .jobj (.cons "creds"
    (.jobj (.cons "noiseKey"
      (.jobj (.cons "private" (.jbuf [65, 65, 69, 67]) .nil))
      (.cons "registrationId" (.jnum 42) .nil)))
    .nil)

/-! ## Connection status projector

`updateConnectionStatus` appears identically in `part_000` (lines 106–135),
`part_011` (lines 121–151) and `baileys.service.ts` (lines 13–42): it builds
an update object containing `connectionStatus`, copies the `qrCode` argument
when it was passed at all, and then overrides per status. -/

/-- The durable per-shop status record, restricted to the fields the session
manager writes. -/
inductive ConnStatus : Type where
  | connecting
  | awaiting_scan
  | connected
  | disconnected
  | error
deriving DecidableEq

structure ShopStatus where
  connectionStatus : ConnStatus
  whatsappConnected : Bool
  qrCode : Option String
  lastConnectedAt : Option Nat
  whatsappSession : Option JVal
deriving DecidableEq

/-- `updateConnectionStatus(shopId, status, qrCode?)`.  The `qr` argument is
`none` when the parameter was omitted (`undefined`) and `some q` when it was
passed (`q = none` modelling `null`); `now` is the clock read by `new Date()`. -/
def updateConnectionStatus (s : ShopStatus) (status : ConnStatus)
    (qr : Option (Option String)) (now : Nat) : ShopStatus :=
  let s1 := { s with connectionStatus := status }
  let s2 := match qr with
    | some q => { s1 with qrCode := q }
    | none => s1
  match status with
  | .connected =>
      { s2 with whatsappConnected := true, lastConnectedAt := some now, qrCode := none }
  | .disconnected => { s2 with whatsappConnected := false, qrCode := none }
  | .error => { s2 with whatsappConnected := false, qrCode := none }
  | _ => s2

/-! ## Session manager: the `connection === 'close'` branch

`shouldReconnect = statusCode !== DisconnectReason.loggedOut`.  The
database-backed services (`part_000` lines 182–195, `part_011` lines 197–209)
schedule `initializeConnection` again after 3000 ms on a transient close, and
on logged-out mark the shop disconnected and clear the stored session.  The
file-based `baileys.service.ts` (lines 98–109) reconnects immediately and on
logged-out only marks the shop disconnected, leaving its stored session. -/

/-- `DisconnectReason.loggedOut` from the messaging library's enum. -/
def DisconnectReason_loggedOut : Nat := 401

/-- Result of handling a close event: the updated durable record and, when a
reconnect was scheduled, its delay in milliseconds. -/
structure CloseOutcome where
  state : ShopStatus
  reconnectDelayMs : Option Nat
deriving DecidableEq

/-- Close handling in `part_000`/`part_011` (database-backed): transient close
leaves the record untouched and schedules `initializeConnection` after 3000 ms;
logged-out runs `updateConnectionStatus('disconnected')` then `clearSession`
(sets `whatsappSession` to null) and schedules nothing. -/
def handleCloseDb (s : ShopStatus) (statusCode : Option Nat) (now : Nat) : CloseOutcome :=
  if statusCode != some DisconnectReason_loggedOut then
    { state := s, reconnectDelayMs := some 3000 }
  else
    { state := { updateConnectionStatus s .disconnected none now with whatsappSession := none },
      reconnectDelayMs := none }

/-- Close handling in `baileys.service.ts` (file-based auth): transient close
re-runs `initializeConnection` at once; logged-out only runs
`updateConnectionStatus('disconnected')` — the stored session is not cleared. -/
def handleCloseFs (s : ShopStatus) (statusCode : Option Nat) (now : Nat) : CloseOutcome :=
  if statusCode != some DisconnectReason_loggedOut then
    { state := s, reconnectDelayMs := some 0 }
  else
    { state := updateConnectionStatus s .disconnected none now, reconnectDelayMs := none }

/-! ## Session registry and capability handles

`connection.service.ts` keeps a module-level `activeConnections` map of
tenant → `BaileysService`.  A `BaileysService.initializeConnection` call always
executes `makeWASocket` and overwrites `this.socket`; the previous socket is
never closed by that path.  The delivery worker does not consult the map at
all: it constructs a fresh `BaileysService` per job. -/

/-- Process-level connection bookkeeping: which tenants have a registered
service, how many `new BaileysService()` constructions ran, and one entry per
socket opened by `makeWASocket` and never closed. -/
structure ConnRegistry where
  registry : List String
  servicesCreated : Nat
  openSockets : List String
deriving DecidableEq

def emptyConnRegistry : ConnRegistry := ⟨[], 0, []⟩

/-- The socket effect of `BaileysService.initializeConnection`: `makeWASocket`
opens a fresh socket for the tenant; the socket previously held in
`this.socket` is dropped without being closed. -/
def initConnectionSocket (tenant : String) (st : ConnRegistry) : ConnRegistry :=
  { st with openSockets := tenant :: st.openSockets }

/-- `startWhatsAppConnection` (`connection.service.ts` lines 22–29): reuse the
registered `BaileysService` for the tenant or create and register one, then
call `initializeConnection` unconditionally. -/
def startWhatsAppConnection (tenant : String) (st : ConnRegistry) : ConnRegistry :=
  let st1 :=
    if tenant ∈ st.registry then st
    else { st with registry := tenant :: st.registry,
                   servicesCreated := st.servicesCreated + 1 }
  initConnectionSocket tenant st1

/-- The per-job connection step of `workers/message-sender.ts` (lines 30–36):
`new BaileysService()` followed by `initializeConnection(shopId)`, with no
lookup in any registry. -/
def workerJobConnect (tenant : String) (st : ConnRegistry) : ConnRegistry :=
  initConnectionSocket tenant { st with servicesCreated := st.servicesCreated + 1 }

/-! ## Delivery job retry (queue primitive configuration)

Modelled from the spec: the durable queue primitive (assumed collaborator,
spec §6) provides per-job retry with exponential backoff; the repository only
configures it.  `src/unnamed/part_002` (lines 10–23) sets
`defaultJobOptions = { attempts: 3, backoff: { type: 'exponential', delay: 5000 } }`
and the worker rethrows on failure (`workers/message-sender.ts` line 113), so
a job that fails on attempt number `a` (1-based) is rescheduled with delay
`base * 2 ^ (a - 1)` while `a < maxAttempts` and is marked terminally failed
when `a = maxAttempts`. -/

/-- Delays of the successive retries of a job that fails on every attempt,
starting from `ac` prior attempts: the attempt bringing the count to `ac + 1`
fails; a retry with delay `base * 2 ^ ac` follows whenever `ac + 1 < maxAttempts`. -/
def failingRetryDelays (maxAttempts base ac : Nat) : List Nat :=
  if ac + 1 < maxAttempts then
    base * 2 ^ ac :: failingRetryDelays maxAttempts base (ac + 1)
  else []
termination_by maxAttempts - ac

/-- Attempt counts reached by a job that fails on every attempt, starting from
`ac` prior attempts; the run stops once the count reaches `maxAttempts`. -/
def failingAttemptCounts (maxAttempts ac : Nat) : List Nat :=
  if ac + 1 < maxAttempts then (ac + 1) :: failingAttemptCounts maxAttempts (ac + 1)
  else [ac + 1]
termination_by maxAttempts - ac

/-- Queue defaults from `part_002`: `attempts: 3`. -/
def defaultMaxAttempts : Nat := 3

/-- Queue defaults from `part_002`: exponential backoff base delay 5000 ms. -/
def defaultBackoffBase : Nat := 5000

/-! ## Outbound delivery worker: one job

`workers/message-sender.ts` lines 29–114, with `BaileysService.sendImageMessage`
(`part_000` lines 251–280 = `part_011` lines 263–289) inlined as the content
decision for jobs with an `imageUrl`. -/

/-- What was handed to the capability's send operation. -/
inductive Payload : Type where
  | image (bytes : List Nat) (caption : String)
  | text (body : String)
deriving DecidableEq

/-- One `MessageHistory` row as the worker writes it. -/
structure HistoryRecord where
  status : String
  message : String
  errorMessage : Option String
deriving DecidableEq

/-- Result of one worker invocation for a claimed job: whether the handler
returned normally (a throw triggers the queue's retry), what was delivered,
the history rows appended, and the usage-counter increment. -/
structure JobOutcome where
  succeeded : Bool
  delivered : Option Payload
  records : List HistoryRecord
  messagesSentIncrement : Nat
deriving DecidableEq

/-- Content selection of `sendImageMessage`: fetch the image
(`fetched = none` models both a rejected `fetch` and `!response.ok`); on any
fetch failure fall back to a text-only send of the caption. -/
def sendImageContent (fetched : Option (List Nat)) (caption : String) : Payload :=
  match fetched with
  | some bytes => .image bytes caption
  | none => .text caption

/-- One run of the worker's job handler.  `imageUrl`/`fetched`/`message` come
from the job; `sendOk` is whether the capability's send call succeeded
(`errText` the error text otherwise); `shopFound` is the history-logging shop
lookup; `historyWriteOk` and `usageWriteOk` are the outcomes of the two
post-send writes, both of which are wrapped in their own try/catch and
swallowed. -/
def processJob (imageUrl : Option String) (fetched : Option (List Nat))
    (message : String) (sendOk : Bool) (errText : String)
    (shopFound historyWriteOk usageWriteOk : Bool) : JobOutcome :=
  let payload :=
    match imageUrl with
    | some _ => sendImageContent fetched message
    | none => .text message
  if sendOk then
    { succeeded := true
      delivered := some payload
      records := if shopFound && historyWriteOk then [⟨"sent", message, none⟩] else []
      messagesSentIncrement := if usageWriteOk then 1 else 0 }
  else
    { succeeded := false
      delivered := none
      records := if shopFound && historyWriteOk then [⟨"failed", message, some errText⟩] else []
      messagesSentIncrement := 0 }

/-! ## Startup reconciliation

`workers/reconnect-sessions.ts` lines 24–89. -/

/-- The shop columns the reconciliation script reads and writes. -/
structure ReconShop where
  domain : String
  whatsappConnected : Bool
  whatsappSession : Option JVal
  connectionStatus : ConnStatus
deriving DecidableEq

/-- `typeof x === 'object'` for a present JSON value. -/
def isJsObject : JVal → Bool
  | .jobj _ => true
  | .jarr _ => true
  | .jbuf _ => true
  | _ => false

/-- The filter of lines 29–45: previously connected and a non-null,
object-typed stored session. -/
def reconEligible (s : ReconShop) : Bool :=
  s.whatsappConnected &&
    (match s.whatsappSession with
     | some v => isJsObject v
     | none => false)

/-- Observable steps of the reconciliation loop, in order. -/
inductive ReconEvent : Type where
  | attempt (domain : String)
  | waitMs (ms : Nat)
  | markError (domain : String)
deriving DecidableEq

/-- The sequential loop of lines 55–82 over the already-filtered shops:
attempt a connect; on success wait 3000 ms before the next shop; on failure
catch the error and update the shop to `whatsappConnected: false,
connectionStatus: 'error'`, then move on without waiting.  Returns the event
trace and the final rows of the processed shops. -/
def reconnectLoop (connectOk : String → Bool) :
    List ReconShop → List ReconEvent × List ReconShop
  | [] => ([], [])
  | s :: rest =>
    let (evs, shops) := reconnectLoop connectOk rest
    if connectOk s.domain then
      (.attempt s.domain :: .waitMs 3000 :: evs, s :: shops)
    else
      (.attempt s.domain :: .markError s.domain :: evs,
       { s with whatsappConnected := false, connectionStatus := .error } :: shops)

/-- `reconnectSessions`: filter, then the sequential loop. -/
def reconnectSessions (connectOk : String → Bool) (shops : List ReconShop) :
    List ReconEvent × List ReconShop :=
  reconnectLoop connectOk (shops.filter reconEligible)

/-- The attempted domains of an event trace, in order. -/
def attemptsOf : List ReconEvent → List String
  | [] => []
  | .attempt d :: rest => d :: attemptsOf rest
  | _ :: rest => attemptsOf rest

/-! ## Credential loading (`part_011` `getDatabaseAuthState`, lines 40–60)

`creds` starts as the fresh identity `initAuthCreds()` and `keys` as `{}`.
A present, object-typed stored session is decoded inside try/catch; a truthy
`sessionData.creds` replaces `creds` and a truthy `sessionData.keys` is
`Object.assign`-ed over the empty key map.  Any decode error is caught and
logged, leaving the fresh identity.  `fresh` stands for the result of the
library's `initAuthCreds()` (an external collaborator). -/

def getDatabaseAuthState_load (fresh : JVal) (stored : Option JVal) : JVal × JVal :=
  match stored with
  | none => (fresh, .jobj .nil)
  | some v =>
    if jsTruthy v && isJsObject v then
      match parseE v with
      | .ok sd =>
        let creds :=
          match sd with
          | .jobj fs =>
            match fs.lookup "creds" with
            | some c => if jsTruthy c then c else fresh
            | none => fresh
          | _ => fresh
        let keys :=
          match sd with
          | .jobj fs =>
            match fs.lookup "keys" with
            | some (.jobj kf) => if jsTruthy (.jobj kf) then JVal.jobj kf else .jobj .nil
            | _ => .jobj .nil
          | _ => .jobj .nil
        (creds, keys)
      | .error _ => (fresh, .jobj .nil)
    else (fresh, .jobj .nil)

/-! ## Tenant data erasure

The shop-redact action (bundled in `app.whatsapp.tsx`, lines 248–291) looks
the shop up by domain, deletes all `messageHistory` and `messageQueue` rows
carrying the shop's id, and finally deletes the shop row itself — which holds
the credential blob in its `whatsappSession` column.  (It also deletes
automations, widgets and connection logs, which the claim does not mention.)
A missing shop leaves the database unchanged. -/

structure ShopRow where
  id : Nat
  shopifyDomain : String
  whatsappSession : Option JVal
deriving DecidableEq

structure HistoryRow where
  shopId : Nat
  status : String
deriving DecidableEq

structure QueueRow where
  shopId : Nat
deriving DecidableEq

structure ShopDB where
  shops : List ShopRow
  messageHistory : List HistoryRow
  messageQueue : List QueueRow
deriving DecidableEq

/-- `prisma.shop.findUnique({ where: { shopifyDomain } })`. -/
def findShop (db : ShopDB) (domain : String) : Option ShopRow :=
  db.shops.find? (fun s => s.shopifyDomain == domain)

def eraseTenantData (db : ShopDB) (domain : String) : ShopDB :=
  match findShop db domain with
  | none => db
  | some sh =>
    { shops := db.shops.filter (fun s => s.id != sh.id)
      messageHistory := db.messageHistory.filter (fun r => r.shopId != sh.id)
      messageQueue := db.messageQueue.filter (fun r => r.shopId != sh.id) }

/-- Reading the credential blob for a tenant: shop lookup by domain, then its
`whatsappSession` column. -/
def readCredentials (db : ShopDB) (domain : String) : Option JVal :=
  (findShop db domain).bind (fun s => s.whatsappSession)

/-- Reading the pending jobs of a tenant. -/
def readJobs (db : ShopDB) (domain : String) : List QueueRow :=
  match findShop db domain with
  | some sh => db.messageQueue.filter (fun r => r.shopId == sh.id)
  | none => []

/-- Reading the delivery history of a tenant. -/
def readHistory (db : ShopDB) (domain : String) : List HistoryRow :=
  match findShop db domain with
  | some sh => db.messageHistory.filter (fun r => r.shopId == sh.id)
  | none => []

/-! ## Auxiliary definitions used by the theorems -/

mutual
/-- A valid credential structure: binary data appears only as genuine buffers
(bytes `< 256`), and no plain object is buffer-shaped (none carries
`type: 'Buffer'` or `buffer: true`) — those shapes are reserved for the
encoding itself. -/
def validJ : JVal → Bool
  | .jbuf bs => bs.all (· < 256)
  | .jarr items => validL items
  | .jobj fs =>
      !isBufShapeS fs && !(fs.lookup "buffer" == some (.jbool true)) && validF fs
  | _ => true
def validL : JList → Bool
  | .nil => true
  | .cons v rest => validJ v && validL rest
def validF : JFields → Bool
  | .nil => true
  | .cons _ v rest => validJ v && validF rest
end

/-- `part_000` `useDatabaseAuthState` (lines 37–53): same try/catch loading
shape as `part_011`, but with the double-replacer decode pipeline. -/
def useDatabaseAuthState_load (fresh : JVal) (stored : Option JVal) : JVal × JVal :=
  match stored with
  | none => (fresh, .jobj .nil)
  | some v =>
    if jsTruthy v && isJsObject v then
      match useDatabaseAuthState_decode v with
      | .ok sd =>
        let creds :=
          match sd with
          | .jobj fs =>
            match fs.lookup "creds" with
            | some c => if jsTruthy c then c else fresh
            | none => fresh
          | _ => fresh
        let keys :=
          match sd with
          | .jobj fs =>
            match fs.lookup "keys" with
            | some (.jobj kf) => if jsTruthy (.jobj kf) then JVal.jobj kf else .jobj .nil
            | _ => .jobj .nil
          | _ => .jobj .nil
        (creds, keys)
      | .error _ => (fresh, .jobj .nil)
    else (fresh, .jobj .nil)

/-- The stored (database) form of `sampleSession`: what `saveToDatabase`
writes, with the private key bytes `[0, 1, 2]` as the base64 text `"AAEC"`. -/
def storedSample : JVal :=
  .jobj (.cons "creds"
    (.jobj (.cons "noiseKey"
      (.jobj (.cons "private" (bufObj "AAEC") .nil))
      (.cons "registrationId" (.jnum 42) .nil)))
    .nil)

/-- A stored record that makes the decode pipeline throw: buffer-shaped with a
numeric `data` property (`Buffer.from(5)` raises a `TypeError`). -/
def corruptStored : JVal :=
  .jobj (.cons "type" (.jstr "Buffer") (.cons "data" (.jnum 5) .nil))

/-- A connected shop with a stored credential blob. -/
def c2State : ShopStatus :=
  { connectionStatus := .connected
    whatsappConnected := true
    qrCode := none
    lastConnectedAt := some 10
    whatsappSession := some storedSample }

/-- The registry after two `startWhatsAppConnection("shop-a")` requests. -/
def c3TwoConnects : ConnRegistry :=
  startWhatsAppConnection "shop-a" (startWhatsAppConnection "shop-a" emptyConnRegistry)

/-- A shop awaiting pairing, with a pairing code stored. -/
def c6State : ShopStatus :=
  { connectionStatus := .awaiting_scan
    whatsappConnected := false
    qrCode := some "QR-PAYLOAD"
    lastConnectedAt := none
    whatsappSession := none }

/-- Two previously-connected shops with stored sessions; used to trace the
reconciliation loop when the first connect attempt fails. -/
def c7ShopA : ReconShop := ⟨"a", true, some (.jobj .nil), .connected⟩

def c7ShopB : ReconShop := ⟨"b", true, some (.jobj .nil), .connected⟩

/-- Reconciliation trace in which shop `"a"` fails and shop `"b"` succeeds. -/
def c7Trace : List ReconEvent :=
  (reconnectSessions (fun d => d == "b") [c7ShopA, c7ShopB]).1

/-- A two-tenant database with credentials, history and one pending job for
`"shop-b"`. -/
def c9Db : ShopDB :=
  { shops := [⟨1, "shop-b", some storedSample⟩, ⟨2, "shop-c", none⟩]
    messageHistory := [⟨1, "sent"⟩, ⟨2, "sent"⟩]
    messageQueue := [⟨1⟩] }

/-! # Theorems

Base64 round-trip lemmas, the BufferJSON round-trip, and the settlement of
the behavioural claims. -/

/-- Decoding inverts encoding on each sextet character. -/
theorem b64Index_b64Char {n : Nat} (h : n < 64) : b64Index (b64Char n) = n := by
  interval_cases n <;> rfl

/-- Alphabet characters are never the padding character. -/
theorem b64Char_ne_eq {n : Nat} (h : n < 64) : b64Char n ≠ '=' := by
  interval_cases n <;> decide

/-- Base64 round-trip at the chunk level: decoding the encoding of a list of
bytes (each `< 256`) returns the same list. -/
theorem b64DecodeChunks_b64EncodeChunks :
    ∀ bs : List Nat, (∀ b ∈ bs, b < 256) →
      b64DecodeChunks (b64EncodeChunks bs) = bs := by
  intro bs
  induction bs using b64EncodeChunks.induct with
  | case1 => intro _; rfl
  | case2 b1 =>
    intro h
    have hb1 : b1 < 256 := h b1 (by simp)
    have h1 : b1 / 4 < 64 := by omega
    have h2 : b1 % 4 * 16 < 64 := by omega
    simp [b64EncodeChunks, b64DecodeChunks, b64Index_b64Char h1, b64Index_b64Char h2]
    omega
  | case3 b1 b2 =>
    intro h
    have hb1 : b1 < 256 := h b1 (by simp)
    have hb2 : b2 < 256 := h b2 (by simp)
    have h1 : b1 / 4 < 64 := by omega
    have h2 : b1 % 4 * 16 + b2 / 16 < 64 := by omega
    have h3 : b2 % 16 * 4 < 64 := by omega
    simp [b64EncodeChunks, b64DecodeChunks, b64Char_ne_eq h3,
          b64Index_b64Char h1, b64Index_b64Char h2, b64Index_b64Char h3]
    omega
  | case4 b1 b2 b3 rest ih =>
    intro h
    have hb1 : b1 < 256 := h b1 (by simp)
    have hb2 : b2 < 256 := h b2 (by simp)
    have hb3 : b3 < 256 := h b3 (by simp)
    have h1 : b1 / 4 < 64 := by omega
    have h2 : b1 % 4 * 16 + b2 / 16 < 64 := by omega
    have h3 : b2 % 16 * 4 + b3 / 64 < 64 := by omega
    have h4 : b3 % 64 < 64 := by omega
    have hrest := ih (fun b hb => h b (by simp [hb]))
    simp [b64EncodeChunks, b64DecodeChunks, b64Char_ne_eq h3, b64Char_ne_eq h4,
          b64Index_b64Char h1, b64Index_b64Char h2, b64Index_b64Char h3,
          b64Index_b64Char h4, hrest]
    omega

/-- Base64 round-trip: `b64decode (b64encode bs) = bs` for genuine bytes. -/
theorem b64decode_b64encode (bs : List Nat) (h : ∀ b ∈ bs, b < 256) :
    b64decode (b64encode bs) = bs := by
  unfold b64decode b64encode
  rw [show (String.mk (b64EncodeChunks bs)).data = b64EncodeChunks bs from rfl]
  exact b64DecodeChunks_b64EncodeChunks bs h

theorem exceptOk_bind {α β : Type} (a : α) (f : α → Except String β) :
    (Except.ok a >>= f) = f a := rfl

theorem exceptError_bind {α β : Type} (e : String) (f : α → Except String β) :
    ((Except.error e : Except String α) >>= f) = .error e := rfl

theorem exceptPure {α : Type} (a : α) : (pure a : Except String α) = .ok a := rfl

theorem b64EncodeChunks_ne_nil (b : Nat) (bs : List Nat) :
    b64EncodeChunks (b :: bs) ≠ [] := by
  match bs with
  | [] => simp [b64EncodeChunks]
  | [b2] => simp [b64EncodeChunks]
  | b2 :: b3 :: rest => simp [b64EncodeChunks]

theorem b64encode_cons_ne_empty (b : Nat) (bs : List Nat) :
    b64encode (b :: bs) ≠ "" := by
  intro hcontra
  have : (b64encode (b :: bs)).data = ("" : String).data := by rw [hcontra]
  simp only [b64encode] at this
  exact b64EncodeChunks_ne_nil b bs this

theorem parseE_bufObj (s : String) (hs : s ≠ "") :
    parseE (bufObj s) = .ok (.jbuf (b64decode s)) := by
  have hs' : (s != "") = true := by simpa using hs
  simp [parseE, bufObj, parseFieldsE, parseE, isBufShapeR, JFields.lookup, jsTruthy, hs',
        exceptOk_bind, exceptPure]

mutual
theorem bufferJSON_roundtrip (v : JVal) (h : validJ v = true) :
    (stringifyE v).bind parseE = Except.ok v := by
  cases v with
  | jnull => rfl
  | jbool b => rfl
  | jnum n => rfl
  | jstr s => rfl
  | jbuf bs =>
    simp only [validJ, List.all_eq_true, decide_eq_true_eq] at h
    have hmap : bs.map (· % 256) = bs := by
      rw [List.map_congr_left (fun b hb => Nat.mod_eq_of_lt (h b hb))]
      exact List.map_id bs
    cases bs with
    | nil => rfl
    | cons b rest =>
      simp only [stringifyE, hmap, Except.bind]
      rw [parseE_bufObj _ (b64encode_cons_ne_empty b rest)]
      rw [b64decode_b64encode _ h]
  | jarr items =>
    have hl := bufferJSON_roundtripL items (by simpa [validJ] using h)
    cases hsl : stringifyListE items with
    | error e => rw [hsl] at hl; simp [Except.bind] at hl
    | ok w =>
      rw [hsl] at hl
      simp only [Except.bind] at hl
      simp only [stringifyE, hsl, exceptOk_bind, Except.bind, parseE, hl, exceptPure]
  | jobj fs =>
    simp only [validJ, Bool.and_eq_true, Bool.not_eq_true'] at h
    have hf := bufferJSON_roundtripF fs h.2
    cases hsf : stringifyFieldsE fs with
    | error e => rw [hsf] at hf; simp [Except.bind] at hf
    | ok w =>
      rw [hsf] at hf
      simp only [Except.bind] at hf
      have h1' : (fs.lookup "type" == some (JVal.jstr "Buffer")) = false := h.1.1
      have hR : isBufShapeR fs = false := by
        simp only [isBufShapeR, h.1.2, h1', Bool.or_false]
      simp [stringifyE, h.1.1, hsf, exceptOk_bind, exceptPure, Except.bind, parseE, hf, hR]
theorem bufferJSON_roundtripL (l : JList) (h : validL l = true) :
    (stringifyListE l).bind parseListE = Except.ok l := by
  cases l with
  | nil => rfl
  | cons v rest =>
    simp only [validL, Bool.and_eq_true] at h
    have hv := bufferJSON_roundtrip v h.1
    have hr := bufferJSON_roundtripL rest h.2
    cases hsv : stringifyE v with
    | error e => rw [hsv] at hv; simp [Except.bind] at hv
    | ok w =>
      rw [hsv] at hv
      simp only [Except.bind] at hv
      cases hsr : stringifyListE rest with
      | error e => rw [hsr] at hr; simp [Except.bind] at hr
      | ok ws =>
        rw [hsr] at hr
        simp only [Except.bind] at hr
        simp only [stringifyListE, hsv, hsr, exceptOk_bind, exceptPure, Except.bind,
                   parseListE, hv, hr]
theorem bufferJSON_roundtripF (fs : JFields) (h : validF fs = true) :
    (stringifyFieldsE fs).bind parseFieldsE = Except.ok fs := by
  cases fs with
  | nil => rfl
  | cons k v rest =>
    simp only [validF, Bool.and_eq_true] at h
    have hv := bufferJSON_roundtrip v h.1
    have hr := bufferJSON_roundtripF rest h.2
    cases hsv : stringifyE v with
    | error e => rw [hsv] at hv; simp [Except.bind] at hv
    | ok w =>
      rw [hsv] at hv
      simp only [Except.bind] at hv
      cases hsr : stringifyFieldsE rest with
      | error e => rw [hsr] at hr; simp [Except.bind] at hr
      | ok ws =>
        rw [hsr] at hr
        simp only [Except.bind] at hr
        simp only [stringifyFieldsE, hsv, hsr, exceptOk_bind, exceptPure, Except.bind,
                   parseFieldsE, hv, hr]
end


/-! ## Claim settlements -/

/-- Claim C1 (code bug): the spec asserts that decoding the stored encoding of a
credential structure yields it back (`decode(encode(C)) == C`, `BufferJSON`
replacer/reviver).  The encoding itself is lossless and `part_011`
`getDatabaseAuthState` decodes the stored form of `sampleSession` back exactly;
but `part_000` `useDatabaseAuthState` (lines 42–44) applies `BufferJSON.replacer`
a second time to the already-encoded record before reviving, so the private key
bytes `[0, 1, 2]` come back as `[65, 65, 69, 67]` — the UTF-8 codes of the
base64 text `"AAEC"` — and `decode(encode(C)) ≠ C` on that load path. -/
theorem C1_useDatabaseAuthState_corrupts_buffers :
    encodeSession sampleSession = Except.ok storedSample
    ∧ getDatabaseAuthState_decode storedSample = Except.ok sampleSession
    ∧ useDatabaseAuthState_decode storedSample = Except.ok sampleSessionCorrupted
    ∧ sampleSessionCorrupted ≠ sampleSession := by
  refine ⟨rfl, rfl, rfl, by decide⟩

/-- Claim C2, counterexample: in `baileys.service.ts` a logged-out close marks
the shop disconnected and does not auto-retry, but leaves the stored credential
blob in place — refuting "for a terminal-logout close it always ... clears the
persisted credential blob". -/
theorem C2_fs_logout_keeps_credentials :
    (handleCloseFs c2State (some DisconnectReason_loggedOut) 11).state.connectionStatus =
      ConnStatus.disconnected
    ∧ (handleCloseFs c2State (some DisconnectReason_loggedOut) 11).reconnectDelayMs = none
    ∧ (handleCloseFs c2State (some DisconnectReason_loggedOut) 11).state.whatsappSession =
        some storedSample := ⟨rfl, rfl, rfl⟩

/-- Claim C2 (amended): on a connection-closed event with any status code other
than `DisconnectReason.loggedOut`, both service variants schedule a reconnect
(re-running `initializeConnection`, after 3000 ms in the database-backed
variant, at once in the file-based one) and leave the record — credentials
included — untouched; on a logged-out close both mark the shop disconnected and
do not retry, and the database-backed variant additionally clears the persisted
credential blob while `baileys.service.ts` leaves it in place. -/
theorem C2_close_reconnect_vs_logout (s : ShopStatus) (code : Option Nat) (now : Nat) :
    (code ≠ some DisconnectReason_loggedOut →
      handleCloseDb s code now = ⟨s, some 3000⟩ ∧ handleCloseFs s code now = ⟨s, some 0⟩)
    ∧ handleCloseDb s (some DisconnectReason_loggedOut) now =
        ⟨⟨.disconnected, false, none, s.lastConnectedAt, none⟩, none⟩
    ∧ handleCloseFs s (some DisconnectReason_loggedOut) now =
        ⟨⟨.disconnected, false, none, s.lastConnectedAt, s.whatsappSession⟩, none⟩ := by
  refine ⟨fun h => ?_, rfl, rfl⟩
  have hb : (code != some DisconnectReason_loggedOut) = true := by simpa using h
  simp [handleCloseDb, handleCloseFs, hb]

/-- Witness for C2: a concrete transient close (status code 515). -/
theorem C2_close_reconnect_vs_logout_witness :
    handleCloseDb c2State (some 515) 11 = ⟨c2State, some 3000⟩
    ∧ handleCloseFs c2State (some 515) 11 = ⟨c2State, some 0⟩ :=
  (C2_close_reconnect_vs_logout c2State (some 515) 11).1 (by decide)

/-- Claim C3 (code bug): the registry reuses the per-tenant `BaileysService`
(one service created, registry `["shop-a"]` after two connect requests), but
every `startWhatsAppConnection` still runs `initializeConnection`, which opens
a fresh socket without closing the previous one — two open sockets after the
second request — and the delivery worker constructs yet another service and
socket per job, so "at most one open capability handle per tenant" is not
enforced. -/
theorem C3_second_connect_opens_second_socket :
    c3TwoConnects.registry = ["shop-a"]
    ∧ c3TwoConnects.servicesCreated = 1
    ∧ c3TwoConnects.openSockets = ["shop-a", "shop-a"]
    ∧ (workerJobConnect "shop-a" c3TwoConnects).servicesCreated = 2
    ∧ (workerJobConnect "shop-a" c3TwoConnects).openSockets =
        ["shop-a", "shop-a", "shop-a"] :=
  ⟨rfl, rfl, rfl, rfl, rfl⟩

/-- Closed form of the failing-job retry delays. -/
theorem failingRetryDelays_closed (m base : Nat) :
    ∀ k ac, m - ac ≤ k → ac < m →
      failingRetryDelays m base ac =
        (List.range' ac (m - 1 - ac)).map (fun i => base * 2 ^ i) := by
  intro k
  induction k with
  | zero => intro ac h1 h2; omega
  | succ k ih =>
    intro ac h1 h2
    rw [failingRetryDelays]
    by_cases hc : ac + 1 < m
    · rw [if_pos hc, ih (ac + 1) (by omega) hc]
      have hn : m - 1 - ac = (m - 1 - (ac + 1)) + 1 := by omega
      rw [hn, List.range'_succ, List.map_cons]
    · rw [if_neg hc]
      have hn : m - 1 - ac = 0 := by omega
      rw [hn]
      rfl

/-- Attempt counts of a failing run never exceed `maxAttempts`. -/
theorem failingAttemptCounts_le (m : Nat) :
    ∀ k ac, m - ac ≤ k → ac < m → ∀ c ∈ failingAttemptCounts m ac, c ≤ m := by
  intro k
  induction k with
  | zero => intro ac h1 h2; omega
  | succ k ih =>
    intro ac h1 h2 c hc
    rw [failingAttemptCounts] at hc
    by_cases hcond : ac + 1 < m
    · rw [if_pos hcond] at hc
      rcases List.mem_cons.mp hc with h | h
      · omega
      · exact ih (ac + 1) (by omega) hcond c h
    · rw [if_neg hcond] at hc
      simp at hc
      omega

/-- A failing run reaches the attempt count `maxAttempts`. -/
theorem failingAttemptCounts_reaches (m : Nat) :
    ∀ k ac, m - ac ≤ k → ac < m → m ∈ failingAttemptCounts m ac := by
  intro k
  induction k with
  | zero => intro ac h1 h2; omega
  | succ k ih =>
    intro ac h1 h2
    rw [failingAttemptCounts]
    by_cases hcond : ac + 1 < m
    · rw [if_pos hcond]
      exact List.mem_cons_of_mem _ (ih (ac + 1) (by omega) hcond)
    · rw [if_neg hcond]
      have : ac + 1 = m := by omega
      simp [this]

/-- Claim C4: a job failing on every attempt is retried exactly
`maxAttempts - 1` times, with exponential backoff `base * 2 ^ attemptCount`
(`attemptCount` the number of prior attempts), its attempt count never exceeds
`maxAttempts`, and the run ends at attempt count `maxAttempts` (terminal
failure). -/
theorem C4_retry_bound (m base : Nat) (h : 1 ≤ m) :
    (failingRetryDelays m base 0).length = m - 1
    ∧ failingRetryDelays m base 0 = (List.range (m - 1)).map (fun i => base * 2 ^ i)
    ∧ (∀ c ∈ failingAttemptCounts m 0, c ≤ m)
    ∧ m ∈ failingAttemptCounts m 0 := by
  have hd := failingRetryDelays_closed m base m 0 (by omega) (by omega)
  refine ⟨?_, ?_, failingAttemptCounts_le m m 0 (by omega) (by omega),
          failingAttemptCounts_reaches m m 0 (by omega) (by omega)⟩
  · rw [hd]
    simp
  · rw [hd, List.range_eq_range' (m - 1)]
    simp

/-- Witness for C4 at the configured defaults (`attempts: 3`, base 5000):
exactly the two retry delays 5000 ms and 10000 ms. -/
theorem C4_retry_bound_witness :
    (failingRetryDelays defaultMaxAttempts defaultBackoffBase 0).length =
      defaultMaxAttempts - 1
    ∧ failingRetryDelays defaultMaxAttempts defaultBackoffBase 0 = [5000, 10000]
    ∧ (∀ c ∈ failingAttemptCounts defaultMaxAttempts 0, c ≤ defaultMaxAttempts)
    ∧ defaultMaxAttempts ∈ failingAttemptCounts defaultMaxAttempts 0 := by
  have h := C4_retry_bound defaultMaxAttempts defaultBackoffBase (by decide)
  exact ⟨h.1, by rw [h.2.1]; rfl, h.2.2.1, h.2.2.2⟩

/-- Claim C5: a job with a `mediaUrl` whose fetch fails is not failed by that:
the worker falls back to a text-only send of the original body, returns
successfully, records a `sent` history row with the original body, and bumps
the usage counter. -/
theorem C5_media_fetch_failure_falls_back_to_text (url msg errText : String) :
    processJob (some url) none msg true errText true true true =
      { succeeded := true
        delivered := some (.text msg)
        records := [⟨"sent", msg, none⟩]
        messagesSentIncrement := 1 } := rfl

/-- Claim C6, counterexample: `updateConnectionStatus('connecting')` with the
`qrCode` argument omitted — exactly how `initializeConnection` calls it —
leaves a stale pairing code stored while the state is `connecting`, refuting
"present only while the state is awaiting_pairing ... cleared on every
transition out of that state". -/
theorem C6_stale_qr_survives_connecting :
    (updateConnectionStatus c6State .connecting none 7).connectionStatus =
      ConnStatus.connecting
    ∧ (updateConnectionStatus c6State .connecting none 7).qrCode = some "QR-PAYLOAD" :=
  ⟨rfl, rfl⟩

/-- Claim C6 (amended): `lastConnectedAt` is written exactly on updates to
`connected`; the stored `qrCode` is cleared on every update to `connected`,
`disconnected` or `error`, while an update to `connecting` or `awaiting_scan`
sets it to the passed argument and leaves it unchanged when the argument is
omitted. -/
theorem C6_projector_fields (s : ShopStatus) (status : ConnStatus)
    (qr : Option (Option String)) (now : Nat) :
    ((updateConnectionStatus s status qr now).lastConnectedAt =
      if status = .connected then some now else s.lastConnectedAt)
    ∧ ((status = .connected ∨ status = .disconnected ∨ status = .error) →
        (updateConnectionStatus s status qr now).qrCode = none)
    ∧ ((status = .connecting ∨ status = .awaiting_scan) →
        (updateConnectionStatus s status qr now).qrCode = qr.getD s.qrCode) := by
  cases status <;> cases qr <;> simp [updateConnectionStatus]

/-- Witness for C6: a concrete transition into `connected`. -/
theorem C6_projector_fields_witness :
    (updateConnectionStatus c6State .connected none 3).lastConnectedAt = some 3
    ∧ (updateConnectionStatus c6State .connected none 3).qrCode = none := by
  have h := C6_projector_fields c6State .connected none 3
  exact ⟨by simpa using h.1, h.2.1 (Or.inl rfl)⟩

/-- Closed form of the reconciliation loop: per-shop event segments and row
updates. -/
theorem reconnectLoop_closed (connectOk : String → Bool) (l : List ReconShop) :
    reconnectLoop connectOk l =
      (l.flatMap (fun s =>
          .attempt s.domain ::
            (if connectOk s.domain then [.waitMs 3000] else [.markError s.domain])),
       l.map (fun s =>
          if connectOk s.domain then s
          else { s with whatsappConnected := false, connectionStatus := .error })) := by
  induction l with
  | nil => rfl
  | cons s rest ih =>
    by_cases hc : connectOk s.domain <;>
      simp [reconnectLoop, ih, hc]

/-- `attemptsOf` distributes over append. -/
theorem attemptsOf_append (l1 l2 : List ReconEvent) :
    attemptsOf (l1 ++ l2) = attemptsOf l1 ++ attemptsOf l2 := by
  induction l1 with
  | nil => rfl
  | cons e rest ih => cases e <;> simp [attemptsOf, ih]

/-- The attempts of the reconciliation trace are exactly the processed domains,
in order. -/
theorem attemptsOf_flatMap (f : ReconShop → Bool) (l : List ReconShop) :
    attemptsOf (l.flatMap (fun s =>
        .attempt s.domain ::
          (if f s then [.waitMs 3000] else [.markError s.domain]))) =
      l.map (fun s => s.domain) := by
  induction l with
  | nil => rfl
  | cons s rest ih =>
    rw [List.flatMap_cons, attemptsOf_append, ih]
    by_cases hc : f s <;> simp [hc, attemptsOf]

/-- Claim C7 (amended): startup reconciliation processes exactly the
previously-connected shops with a non-null object session, strictly
sequentially and regardless of individual failures (every eligible domain is
attempted once, in order); a failed shop is marked `error` with
`whatsappConnected: false`; the 3000 ms inter-tenant wait follows each
successful attempt, while a failed attempt proceeds to the next tenant without
the wait. -/
theorem C7_reconciliation (connectOk : String → Bool) (shops : List ReconShop) :
    (reconnectSessions connectOk shops).1 =
      (shops.filter reconEligible).flatMap (fun s =>
        .attempt s.domain ::
          (if connectOk s.domain then [.waitMs 3000] else [.markError s.domain]))
    ∧ attemptsOf (reconnectSessions connectOk shops).1 =
        (shops.filter reconEligible).map (fun s => s.domain)
    ∧ (reconnectSessions connectOk shops).2 =
        (shops.filter reconEligible).map (fun s =>
          if connectOk s.domain then s
          else { s with whatsappConnected := false, connectionStatus := .error }) := by
  have h := reconnectLoop_closed connectOk (shops.filter reconEligible)
  refine ⟨?_, ?_, ?_⟩
  · show (reconnectLoop connectOk (shops.filter reconEligible)).1 = _
    rw [h]
  · show attemptsOf (reconnectLoop connectOk (shops.filter reconEligible)).1 = _
    rw [h]
    exact attemptsOf_flatMap (fun s => connectOk s.domain) (shops.filter reconEligible)
  · show (reconnectLoop connectOk (shops.filter reconEligible)).2 = _
    rw [h]

/-- Claim C7, counterexample: with shop `"a"` failing and `"b"` succeeding, the
trace is attempt a, mark-error a, attempt b, wait — no 3-second delay separates
the two attempts, refuting the unconditional "fixed ~3-second inter-tenant
delay between attempts". -/
theorem C7_no_delay_after_failed_attempt :
    c7Trace = [.attempt "a", .markError "a", .attempt "b", .waitMs 3000]
    ∧ ReconEvent.waitMs 3000 ∉ c7Trace.take 2 := by
  refine ⟨rfl, by decide⟩

/-- Claim C8: loading credentials never throws and degrades to the fresh
identity: an absent record, a record that is not a JSON object, and a record
whose decode raises are all mapped to `(initAuthCreds, {})` by both
`getDatabaseAuthState` (part_011) and `useDatabaseAuthState` (part_000); the
thrown decode error is swallowed by the surrounding try/catch. -/
theorem C8_load_tolerates_absent_and_corrupt (fresh v : JVal) :
    getDatabaseAuthState_load fresh none = (fresh, .jobj .nil)
    ∧ useDatabaseAuthState_load fresh none = (fresh, .jobj .nil)
    ∧ (∀ e, parseE v = .error e →
        getDatabaseAuthState_load fresh (some v) = (fresh, .jobj .nil))
    ∧ (∀ e, useDatabaseAuthState_decode v = .error e →
        useDatabaseAuthState_load fresh (some v) = (fresh, .jobj .nil))
    ∧ (isJsObject v = false →
        getDatabaseAuthState_load fresh (some v) = (fresh, .jobj .nil)
        ∧ useDatabaseAuthState_load fresh (some v) = (fresh, .jobj .nil)) := by
  refine ⟨rfl, rfl, fun e he => ?_, fun e he => ?_, fun hobj => ?_⟩
  · by_cases hc : (jsTruthy v && isJsObject v) = true
    · simp [getDatabaseAuthState_load, hc, he]
    · simp only [Bool.not_eq_true] at hc
      simp [getDatabaseAuthState_load, hc]
  · by_cases hc : (jsTruthy v && isJsObject v) = true
    · simp [useDatabaseAuthState_load, hc, he]
    · simp only [Bool.not_eq_true] at hc
      simp [useDatabaseAuthState_load, hc]
  · constructor
    · simp [getDatabaseAuthState_load, hobj]
    · simp [useDatabaseAuthState_load, hobj]

/-- Witness for C8: a buffer-shaped record with numeric `data`, whose decode
throws `TypeError`. -/
theorem C8_load_witness :
    getDatabaseAuthState_load (JVal.jstr "fresh-identity") (some corruptStored) =
      (JVal.jstr "fresh-identity", .jobj .nil)
    ∧ useDatabaseAuthState_load (JVal.jstr "fresh-identity") (some corruptStored) =
      (JVal.jstr "fresh-identity", .jobj .nil) := by
  have h := C8_load_tolerates_absent_and_corrupt (JVal.jstr "fresh-identity") corruptStored
  exact ⟨h.2.2.1 "TypeError: Buffer.from" rfl,
         h.2.2.2.1 "TypeError: Buffer.from on non-array data" rfl⟩

/-- Under the unique-domain constraint, the shop found by domain is the only
row with that domain. -/
theorem find_domain_unique {l : List ShopRow} {sh : ShopRow} {domain : String}
    (hfind : l.find? (fun s => s.shopifyDomain == domain) = some sh)
    (huniq : l.Pairwise (fun a b => a.shopifyDomain ≠ b.shopifyDomain)) :
    ∀ t ∈ l, t.shopifyDomain = domain → t = sh := by
  induction l with
  | nil => simp at hfind
  | cons a rest ih =>
    rw [List.find?_cons] at hfind
    rcases List.pairwise_cons.mp huniq with ⟨hhead, htail⟩
    by_cases ha : (a.shopifyDomain == domain) = true
    · rw [ha] at hfind
      have hasheq : a = sh := by simpa using hfind
      have hadom : a.shopifyDomain = domain := by simpa using ha
      intro t ht htdom
      rcases List.mem_cons.mp ht with rfl | htrest
      · exact hasheq
      · exact absurd (hadom.trans htdom.symm) (hhead t htrest)
    · have ha' : (a.shopifyDomain == domain) = false := by
        simpa using ha
      rw [ha'] at hfind
      intro t ht htdom
      rcases List.mem_cons.mp ht with rfl | htrest
      · exact absurd htdom (by simpa using ha)
      · exact ih hfind htail t htrest htdom

/-- Claim C9: after `eraseTenantData`, reading the tenant's credentials, jobs
or history returns empty results, and no queue or history row for the erased
shop id survives; the shop row (and with it the credential blob) is gone.
Requires the schema's unique constraint on `shopifyDomain`. -/
theorem C9_erase_tenant (db : ShopDB) (domain : String)
    (huniq : db.shops.Pairwise (fun a b => a.shopifyDomain ≠ b.shopifyDomain)) :
    readCredentials (eraseTenantData db domain) domain = none
    ∧ readJobs (eraseTenantData db domain) domain = []
    ∧ readHistory (eraseTenantData db domain) domain = []
    ∧ (∀ sh, findShop db domain = some sh →
        (∀ r ∈ (eraseTenantData db domain).messageQueue, r.shopId ≠ sh.id)
        ∧ (∀ r ∈ (eraseTenantData db domain).messageHistory, r.shopId ≠ sh.id)) := by
  cases hf : findShop db domain with
  | none =>
    have herase : eraseTenantData db domain = db := by
      simp [eraseTenantData, hf]
    rw [herase]
    refine ⟨?_, ?_, ?_, ?_⟩
    · simp [readCredentials, hf]
    · simp [readJobs, hf]
    · simp [readHistory, hf]
    · intro sh hsh
      simp at hsh
  | some sh =>
    have herase : eraseTenantData db domain =
        { shops := db.shops.filter (fun s => s.id != sh.id)
          messageHistory := db.messageHistory.filter (fun r => r.shopId != sh.id)
          messageQueue := db.messageQueue.filter (fun r => r.shopId != sh.id) } := by
      simp [eraseTenantData, hf]
    have hkey : findShop (eraseTenantData db domain) domain = none := by
      rw [herase]
      simp only [findShop]
      rw [List.find?_eq_none]
      intro t ht hpt
      have htmem := List.mem_filter.mp ht
      have htdom : t.shopifyDomain = domain := by simpa using hpt
      have := find_domain_unique hf huniq t htmem.1 htdom
      subst this
      simp at htmem
    refine ⟨?_, ?_, ?_, ?_⟩
    · simp [readCredentials, hkey]
    · simp [readJobs, hkey]
    · simp [readHistory, hkey]
    · intro sh2 hsh2
      obtain rfl : sh = sh2 := Option.some_inj.mp hsh2
      constructor
      · intro r hr
        rw [herase] at hr
        have := (List.mem_filter.mp hr).2
        simpa using this
      · intro r hr
        rw [herase] at hr
        have := (List.mem_filter.mp hr).2
        simpa using this

/-- Witness for C9 on a concrete two-tenant database. -/
theorem C9_erase_tenant_witness :
    readCredentials (eraseTenantData c9Db "shop-b") "shop-b" = none
    ∧ readJobs (eraseTenantData c9Db "shop-b") "shop-b" = []
    ∧ readHistory (eraseTenantData c9Db "shop-b") "shop-b" = [] := by
  have h := C9_erase_tenant c9Db "shop-b" (by decide)
  exact ⟨h.1, h.2.1, h.2.2.1⟩

/-- Claim C10: once the send succeeded, failures of the history write or the
usage-counter increment are swallowed: the job still completes successfully
(no rethrow, hence no retry) and no `failed` history row is produced. -/
theorem C10_postsend_write_failures_do_not_fail_job (url : Option String)
    (fetched : Option (List Nat)) (msg errText : String)
    (shopFound historyWriteOk usageWriteOk : Bool) :
    (processJob url fetched msg true errText shopFound historyWriteOk usageWriteOk).succeeded
      = true
    ∧ ∀ r ∈ (processJob url fetched msg true errText shopFound historyWriteOk
        usageWriteOk).records, r.status = "sent" := by
  refine ⟨rfl, fun r hr => ?_⟩
  by_cases hb : (shopFound && historyWriteOk) = true
  · simp [processJob, hb] at hr
    rw [hr]
  · simp [processJob, hb] at hr

end WhatSend
